import Mathlib

/-!
Shallow embedding of `tools/xstore/cli/restore.py` (polardbx-operator):
the restore orchestration driver, its parsing helpers and its catch-up
monitor.  Python strings are embedded as `List Char`; Python string
methods (`strip`, `split`, `splitlines`, `int(...)`, indexing) are
embedded as the `py*` functions below, following CPython semantics.
Fallible operations (Python exceptions) are embedded with `Except`.
-/

namespace XStoreRestore

/-- Python strings, embedded as lists of characters. -/
abbrev PyStr := List Char

/-- Literal helper: a Lean string literal as a `PyStr`. -/
def strL (s : String) : PyStr := s.data

/-- Python `str.isspace` for one character, the whitespace set used by
`str.strip()` and `str.split()` with no arguments. -/
def pyIsSpace (c : Char) : Bool :=
  c = ' ' || c = '\t' || c = '\n' || c = '\x0d' || c = '\x0b' || c = '\x0c'

/-- Python `s.strip()`: drop leading and trailing whitespace. -/
def pyStripWs (s : PyStr) : PyStr :=
  ((s.dropWhile pyIsSpace).reverse.dropWhile pyIsSpace).reverse

/-- Python `s.strip(chars)`: drop leading and trailing characters that
belong to `cs` (a set of characters, order irrelevant). -/
def pyStripChars (cs : List Char) (s : PyStr) : PyStr :=
  ((s.dropWhile (· ∈ cs)).reverse.dropWhile (· ∈ cs)).reverse

/-- Auxiliary for `pySplit`: prepend a character to the first piece. -/
def consHead (c : Char) : List PyStr → List PyStr
  | [] => [[c]]
  | g :: gs => (c :: g) :: gs

/-- Python `s.split(sep)` for a one-character separator `sep`:
splits at every occurrence, keeping empty pieces (`"".split(sep) = [""]`). -/
def pySplit (sep : Char) : PyStr → List PyStr
  | [] => [[]]
  | c :: rest =>
    if c = sep then [] :: pySplit sep rest
    else consHead c (pySplit sep rest)

/-- Auxiliary for `pySplitWs`: `cur` is the (reversed) token being read. -/
def pySplitWsAux : PyStr → PyStr → List PyStr
  | cur, [] => if cur = [] then [] else [cur.reverse]
  | cur, c :: rest =>
    if pyIsSpace c then
      if cur = [] then pySplitWsAux [] rest
      else cur.reverse :: pySplitWsAux [] rest
    else pySplitWsAux (c :: cur) rest

/-- Python `s.split()` with no argument: split on whitespace runs,
discarding empty pieces. -/
def pySplitWs (s : PyStr) : List PyStr := pySplitWsAux [] s

/-- Python `s.splitlines()` (for `\n`-separated text): like splitting on
`\n` but without a trailing empty piece, and `"".splitlines() = []`. -/
def pySplitLines (s : PyStr) : List PyStr :=
  if s = [] then []
  else
    let ps := pySplit '\n' s
    if ps.getLast? = some [] then ps.dropLast else ps

/-- Python `s.replace(" ", "")`: remove every space character. -/
def pyReplaceSpace (s : PyStr) : PyStr := s.filter (· ≠ ' ')

/-- Value of a digit string (all characters assumed digits). -/
def digitsVal (s : PyStr) : Nat :=
  s.foldl (fun acc c => acc * 10 + (c.toNat - '0'.toNat)) 0

/-- Python `int(s)`: strip whitespace, optional sign, then a nonempty
run of digits; anything else raises `ValueError` (embedded as `.error`). -/
def pyInt (s : PyStr) : Except Unit Int :=
  let t := pyStripWs s
  match t with
  | [] => .error ()
  | '-' :: ds =>
    if ds ≠ [] ∧ ds.all Char.isDigit then .ok (-(digitsVal ds : Int)) else .error ()
  | '+' :: ds =>
    if ds ≠ [] ∧ ds.all Char.isDigit then .ok (digitsVal ds : Int) else .error ()
  | ds =>
    if ds.all Char.isDigit then .ok (digitsVal ds : Int) else .error ()

/-- Python `xs[n]` for a nonnegative index: `IndexError` when out of range. -/
def pyIndex {α : Type} (xs : List α) (n : Nat) : Except Unit α :=
  match xs[n]? with
  | some a => .ok a
  | none => .error ()

/-- Python `xs[-k]` (negative index `-k`, `k > 0`): element `xs.length - k`
when `k ≤ xs.length`, `IndexError` otherwise. -/
def pyIndexNeg {α : Type} (xs : List α) (k : Nat) : Except Unit α :=
  if k ≤ xs.length then pyIndex xs (xs.length - k) else .error ()

/-- Python `os.path.join(a, b)` for a relative second component. -/
def pyJoin (a b : PyStr) : PyStr := a ++ strL "/" ++ b

/-- Python `str(x)` for an optional int (`str(None) = "None"`). -/
def pyStrOfOptInt (x : Option Int) : PyStr :=
  match x with
  | none => strL "None"
  | some i => (toString i).data

/-- Python `str(x)` for an optional string (`str(None) = "None"`). -/
def pyStrOfOptStr (x : Option PyStr) : PyStr :=
  match x with
  | none => strL "None"
  | some s => s

/-!  ## `get_xtrabackup_binlog_info_from_instance_local`

Source (restore.py:262-271): if the marker file
`<data_dir>/xtrabackup_binlog_info` does not exist, return `None`;
otherwise read it, strip whitespace; if nonempty, split on whitespace and
return token 1 when at least two tokens exist, else token 0; an empty or
all-whitespace file falls through and returns `None`.
The file is embedded as `Option PyStr` (`none` = file absent). -/

/-- Embeds `get_xtrabackup_binlog_info_from_instance_local`.  The outer
`Except` carries a possible `IndexError` (unreachable in fact); the inner
`Option` is the Python return value. -/
def get_xtrabackup_binlog_info_from_instance_local (file : Option PyStr) :
    Except Unit (Option PyStr) :=
  match file with
  | none => .ok none
  | some content =>
    let binlog_info := pyStripWs content
    if binlog_info ≠ [] then
      let str_list := pySplitWs binlog_info
      if 2 ≤ str_list.length then
        match pyIndex str_list 1 with
        | .ok t => .ok (some t)
        | .error e => .error e
      else
        match pyIndex str_list 0 with
        | .ok t => .ok (some t)
        | .error e => .error e
    else
      .ok none

/-!  ## `check_binlog_apply_index_status`

Source (restore.py:288-306): query output is one row per line; each row
is tab-separated; `int(columns[-3])` is compared against
`int(end_log_index)`; the first row below the target returns `False`;
otherwise `True`.  Empty output raises.  The query output string is the
argument (the SQL round-trip of `execute_mysqlcmd` is external). -/

/-- Loop body of `check_binlog_apply_index_status` over the split rows. -/
def checkRows (end_log_index : PyStr) : List PyStr → Except Unit Bool
  | [] => .ok true
  | row :: rest =>
    match pyIndexNeg (pySplit '\t' row) 3 with
    | .error e => .error e
    | .ok col =>
      match pyInt col with
      | .error e => .error e
      | .ok v =>
        match pyInt end_log_index with
        | .error e => .error e
        | .ok tgt => if v < tgt then .ok false else checkRows end_log_index rest

/-- Embeds `check_binlog_apply_index_status` (the `stat` component of
`execute_mysqlcmd` is ignored by the source; only `output` is inspected). -/
def check_binlog_apply_index_status (output : PyStr) (end_log_index : PyStr) :
    Except Unit Bool :=
  if output = [] then .error ()
  else checkRows end_log_index (pySplit '\n' output)

/-!  ## `xdb_show_binlog_index` output parsing

Source (restore.py:380-384): temp is the stdout stripped of whitespace,
then stripped of the bracket characters at both ends, with every space
removed; end_index and end_term are the two colon-separated fields of
the comma-separated piece at index 1.  Both are returned as
strings.  The spawning of `mysqlbinlogtailor` is handled by the driver;
this function embeds the pure parsing of its captured stdout. -/

/-- Embeds the stdout parsing of `xdb_show_binlog_index`: returns
`(end_index, end_term)` or an `IndexError`. -/
def xdbParseBinlogIndex (index_info : PyStr) : Except Unit (PyStr × PyStr) :=
  let temp := pyReplaceSpace (pyStripChars (strL "[[]]") (pyStripWs index_info))
  match pyIndex (pySplit ',' temp) 1 with
  | .error e => .error e
  | .ok second =>
    match pyIndex (pySplit ':' second) 0 with
    | .error e => .error e
    | .ok end_index =>
      match pyIndex (pySplit ':' second) 1 with
      | .error e => .error e
      | .ok end_term => .ok (end_index, end_term)

/-!  ## Catch-up monitor: `wait_binlog_apply_ready`

Source (restore.py:274-285): `deadline = time.time() + 48*60*60`;
`while time.time() < deadline:` sleep 10 then call
`check_binlog_apply_index_status`; any exception from the body is caught
and logged; a `True` result returns; once the while-condition fails a
`TimeoutError` is raised.

The environment is embedded as a trace of poll iterations: each entry is
the wall-clock reading taken by the `while` condition paired with the
query output string seen by the status check of that iteration.  `none` as
the overall result means the trace ended while the loop was still
running (the loop never terminates on its own inside the trace). -/

/-- Errors raised by the restore driver. -/
inductive RestoreError : Type
  /-- Embeds `Exception("can NOT get logger commit index")` -/
  | configError : RestoreError
  /-- a `check_run_process` invocation exited non-zero -/
  | processError (cmd : List PyStr) (code : Int) : RestoreError
  /-- Embeds `TimeoutError("binlog apply timeout!")` -/
  | timeoutError : RestoreError
  /-- an uncaught Python `IndexError`/`ValueError` -/
  | pyError : RestoreError
deriving DecidableEq

/-- The polling loop of `wait_binlog_apply_ready` over a trace of
(while-condition clock reading, query output) iterations.  A reading at
or past the deadline exits the loop and raises `TimeoutError` without
looking at the query output of that iteration; a `True` check returns; a
`False` check or a raised-and-caught exception continues. -/
def waitLoop (deadline : Nat) (end_log_index : PyStr) :
    List (Nat × PyStr) → Option (Except RestoreError Unit)
  | [] => none
  | (t, out) :: rest =>
    if t < deadline then
      match check_binlog_apply_index_status out end_log_index with
      | .ok true => some (.ok ())
      | _ => waitLoop deadline end_log_index rest
    else some (.error .timeoutError)

/-- Embeds `wait_binlog_apply_ready`: absolute deadline = start time plus
a fixed 48-hour budget, then the polling loop. -/
def wait_binlog_apply_ready (startTime : Nat) (end_log_index : PyStr)
    (trace : List (Nat × PyStr)) : Option (Except RestoreError Unit) :=
  waitLoop (startTime + 48 * 60 * 60) end_log_index trace

/-!  ## `copy_binlog_to_new_path`

Source (restore.py:147-161): the index file
the file mysql_bin.index under the log directory is opened with mode
"w+" (truncating any
previous content); for each manifest entry, in order: copy the staged
segment into the log directory, chown it, write its new absolute path
followed by a newline to the index file; finally chown the index file.
The file content written is embedded as the returned `PyStr`. -/

/-- Filesystem / process side effects of the driver. -/
inductive Effect : Type
  | mkdirE (path : PyStr) : Effect
  | chownE (path : PyStr) : Effect
  | downloadE (remote : PyStr) (dest : PyStr) : Effect
  | copyE (src : PyStr) (dst : PyStr) : Effect
  /-- writing the segment index file with the given full content -/
  | writeIndexFileE (path : PyStr) (content : PyStr) : Effect
  /-- writing a rendered configuration file (render itself is external) -/
  | writeConfE (path : PyStr) : Effect
  /-- a shell child process run via `subprocess.Popen(cmd, shell=True)` -/
  | spawnToolE (cmd : PyStr) : Effect
  /-- a child process run to completion via `check_run_process` -/
  | runProcessE (cmd : List PyStr) : Effect
  /-- a child process run with piped stdout (`mysqlbinlogtailor`) -/
  | spawnPipeE (cmd : List PyStr) : Effect
  /-- the long-lived engine `mysqld` process (`subprocess.Popen`, held) -/
  | spawnEngineE (cmd : List PyStr) : Effect
  /-- Effect of `p.kill()` on the long-lived engine process -/
  | killEngineE : Effect
  /-- Effect of `p.wait()` on the long-lived engine process -/
  | waitEngineE : Effect
  /-- Effect of `context.mark_node_initialized()` -/
  | markInitializedE : Effect
deriving DecidableEq

/-- Constant `RESTORE_TEMP_DIR` (restore.py:34). -/
def RESTORE_TEMP_DIR : PyStr := strL "/data/mysql/restore"

/-- Embeds `copy_binlog_to_new_path`: returns the effects performed and
the full content the loop wrote to the (truncated) index file. -/
def copy_binlog_to_new_path (mysql_bin_list : List PyStr) (log_dir : PyStr) :
    List Effect × PyStr :=
  let index_file := pyJoin log_dir (strL "mysql_bin.index")
  let content := (mysql_bin_list.map (fun b => pyJoin log_dir b ++ strL "\n")).flatten
  ((mysql_bin_list.map (fun b =>
      [Effect.copyE (pyJoin RESTORE_TEMP_DIR b) (pyJoin log_dir b),
       Effect.chownE (pyJoin log_dir b)])).flatten
    ++ [Effect.writeIndexFileE index_file content, Effect.chownE index_file],
   content)

/-!  ## Node context and driver environment

`core.context.Context` and `core.convention` are external collaborators
(not under the embedded source tree): they only supply the node role,
filesystem paths and engine flags consumed read-only by restore.py, so
they are embedded as opaque record fields / constants.  The embedding
relies only on the three role constants being pairwise distinct. -/

/-- Role constant `NODE_ROLE_CANDIDATE` from `core.convention` (external). -/
def NODE_ROLE_CANDIDATE : PyStr := strL "candidate"

/-- Role constant `NODE_ROLE_LEARNER` from `core.convention` (external). -/
def NODE_ROLE_LEARNER : PyStr := strL "learner"

/-- Role constant `NODE_ROLE_VOTER` from `core.convention` (external). -/
def NODE_ROLE_VOTER : PyStr := strL "voter"

/-- The slice of `core.context.Context` (external) read by restore.py. -/
structure Ctx : Type where
  node_role : PyStr
  engine_home : PyStr
  mycnf_path : PyStr
  mycnf_override_path : PyStr
  mysql_conf : PyStr
  xtrabackup_home : PyStr
  xtrabackup : PyStr
  mysqlbinlogtailor : PyStr
  /-- base directory of `volume_path(VOLUME_DATA, ·)` -/
  volume_data : PyStr
  is_galaxy80 : Bool
  is_xcluster57 : Bool
  /-- Value of `xcluster_info_argument(local=True)` -/
  xcluster_info_local : PyStr
  /-- Value of `xcluster_info_argument(name_from_env=True)` -/
  xcluster_info_env : PyStr
  /-- Value of `indicate and indicate.reset_config` in `initialize_local_mycnf` -/
  reset_config : Bool
deriving DecidableEq

/-- Embeds `context.volume_path(VOLUME_DATA, sub)`. -/
def volume_path (ctx : Ctx) (sub : PyStr) : PyStr := pyJoin ctx.volume_data sub

/-- Modelled from the spec: `core.backup_restore.utils.check_run_process`
is not under the embedded source tree.  Per spec §4.6/§9 ("invoke
external process … a non-zero exit raises a typed error"), it runs the
command to completion and raises exactly when the exit status is
non-zero. -/
def check_run_process (cmd : List PyStr) (exitCode : Int) :
    List Effect × Except RestoreError Unit :=
  ([Effect.runProcessE cmd],
   if exitCode = 0 then .ok () else .error (.processError cmd exitCode))

/-- Embeds `mkdir_needed` (restore.py:110-124): conditional mkdirs of the
staging and volume directories, then unconditional chowns.  The
`*Exists` flags embed the `os.path.exists` checks. -/
def mkdir_needed (ctx : Ctx) (tmpDirExists dataExists logExists tmpExists
    runExists : Bool) : List Effect :=
  (if tmpDirExists then [] else [Effect.mkdirE RESTORE_TEMP_DIR]) ++
  (if dataExists then [] else [Effect.mkdirE (volume_path ctx (strL "data"))]) ++
  (if logExists then [] else [Effect.mkdirE (volume_path ctx (strL "log"))]) ++
  (if tmpExists then [] else [Effect.mkdirE (volume_path ctx (strL "tmp"))]) ++
  (if runExists then [] else [Effect.mkdirE (volume_path ctx (strL "run"))]) ++
  [Effect.chownE (volume_path ctx (strL "data")),
   Effect.chownE (volume_path ctx (strL "log")),
   Effect.chownE (volume_path ctx (strL "tmp")),
   Effect.chownE (volume_path ctx (strL "run"))]

/-- Embeds `download_backup_file` (restore.py:127-130). -/
def download_backup_file (backup_file_path backup_file_name : PyStr) :
    List Effect :=
  [Effect.downloadE backup_file_path (pyJoin RESTORE_TEMP_DIR backup_file_name)]

/-- Embeds `download_binlogbackup_file` (restore.py:133-144): download
the manifest `binlog_list`, split its content into lines, download each
listed segment, return the list of names.  `content` is the downloaded
content of the manifest (the transfer itself is external). -/
def download_binlogbackup_file (binlog_dir_path : PyStr) (content : PyStr) :
    List Effect × List PyStr :=
  let mysql_binlog_list := pySplitLines content
  (Effect.downloadE (pyJoin binlog_dir_path (strL "binlog_list"))
      (pyJoin RESTORE_TEMP_DIR (strL "binlog_list"))
    :: mysql_binlog_list.map (fun b =>
        Effect.downloadE (pyJoin binlog_dir_path b) (pyJoin RESTORE_TEMP_DIR b)),
   mysql_binlog_list)

/-- Embeds `decompress_backup_file` (restore.py:164-170).  The source
runs `xbstream` via `with subprocess.Popen(cmd, shell=True)`: the
context manager waits for the child but never inspects its exit status,
so the function returns normally whatever `exitCode` is. -/
def decompress_backup_file (backup_file_name : PyStr) (ctx : Ctx)
    (exitCode : Int) : List Effect × Except RestoreError Unit :=
  let decompress_cmd :=
    ctx.xtrabackup_home ++ strL "/xbstream -x < "
      ++ pyJoin RESTORE_TEMP_DIR backup_file_name
      ++ strL " -C " ++ volume_path ctx (strL "data")
  ([Effect.spawnToolE decompress_cmd], .ok ())

/-- Embeds `initialize_local_mycnf` (restore.py:182-207): conditional
mkdir of the conf directory; regenerate the override layer when forced
or absent; render the final my.cnf.  Rendering and the advisory file
lock are external (`MycnfRenderer`, `fcntl`); only the write effects are
embedded. -/
def initialize_local_mycnf (ctx : Ctx) (confDirExists overrideExists : Bool) :
    List Effect :=
  (if confDirExists then [] else [Effect.mkdirE ctx.mysql_conf]) ++
  (if ctx.reset_config || !overrideExists
   then [Effect.writeConfE ctx.mycnf_override_path] else []) ++
  [Effect.writeConfE ctx.mycnf_path]

/-- Embeds `apply_backup_file` (restore.py:210-223): the prepare /
apply-log command is selected by engine edition (empty command when
neither flag holds); it is run via `with subprocess.Popen(cmd,
shell=True)`, which waits for the child but never inspects its exit
status, so the function returns normally whatever `exitCode` is. -/
def apply_backup_file (ctx : Ctx) (exitCode : Int) :
    List Effect × Except RestoreError Unit :=
  let apply_backup_cmd :=
    if ctx.is_galaxy80 then
      ctx.xtrabackup ++ strL " --defaults-file=" ++ ctx.mycnf_path
        ++ strL " --prepare --target-dir=" ++ volume_path ctx (strL "data")
        ++ strL " 2> " ++ volume_path ctx (strL "log") ++ strL "/applybackup.log"
    else if ctx.is_xcluster57 then
      ctx.xtrabackup ++ strL " --defaults-file=" ++ ctx.mycnf_path
        ++ strL " --apply-log  " ++ volume_path ctx (strL "data")
        ++ strL " 2> " ++ volume_path ctx (strL "log") ++ strL "/applybackup.log"
    else []
  ([Effect.spawnToolE apply_backup_cmd], .ok ())

/-- Embeds `chown_data_dir` (restore.py:226-227). -/
def chown_data_dir (ctx : Ctx) (exitCode : Int) :
    List Effect × Except RestoreError Unit :=
  check_run_process
    [strL "chown", strL "-R", strL "mysql:mysql", volume_path ctx (strL "data")]
    exitCode

/-- Embeds the fold of `show_last_and_first_binlog` over the index-file
lines: the int value of the piece after the last dot of each line,
maxed into `last` and minned into
`first`. -/
def binlogIndexBounds : List PyStr → Int → Int → Except Unit (Int × Int)
  | [], last, first => .ok (last, first)
  | line :: rest, last, first =>
    match pyIndexNeg (pySplit '.' line) 1 with
    | .error e => .error e
    | .ok piece =>
      match pyInt piece with
      | .error e => .error e
      | .ok v => binlogIndexBounds rest (max v last) (min v first)

/-- Python `f.readlines()` for `\n`-separated text: lines keep their
terminating newline; a final unterminated chunk is kept as-is. -/
def pyReadLinesAux : PyStr → PyStr → List PyStr
  | cur, [] => if cur = [] then [] else [cur.reverse]
  | cur, c :: rest =>
    if c = '\n' then (cur.reverse ++ ['\n']) :: pyReadLinesAux [] rest
    else pyReadLinesAux (c :: cur) rest

/-- Python `f.readlines()`. -/
def pyReadLines (s : PyStr) : List PyStr := pyReadLinesAux [] s

/-- Python `"%06d" % n`: zero-pad to width 6 (sign included). -/
def pyFormat06 (n : Int) : PyStr :=
  let s := (toString n.natAbs).data
  if n < 0 then '-' :: (List.replicate (5 - s.length) '0' ++ s)
  else List.replicate (6 - s.length) '0' ++ s

/-- Embeds `show_last_and_first_binlog` (restore.py:346-360), reading
the index-file content written by `copy_binlog_to_new_path`:
`last_file_index` starts at `-1`, `first_file_index` at `10^9`; each
line contributes the int value of its piece after the last dot; the
results are formatted
as `mysql_bin.%06d` under the log directory. -/
def show_last_and_first_binlog (indexContent : PyStr) (ctx : Ctx) :
    Except Unit (PyStr × PyStr) :=
  let log_dir := volume_path ctx (strL "log")
  match binlogIndexBounds (pyReadLines indexContent) (-1) 1000000000 with
  | .error e => .error e
  | .ok (last, first) =>
    .ok (pyJoin log_dir (strL "mysql_bin." ++ pyFormat06 last),
         pyJoin log_dir (strL "mysql_bin." ++ pyFormat06 first))

/-- Embeds `init_mysqld_metadata` (restore.py:230-248): for a Voter the
cluster start index is replaced by the backup commit index, and its
absence raises before any process is spawned; then the force-init
`mysqld` invocation runs via `check_run_process`. -/
def init_mysqld_metadata (cluster_start_index : Option PyStr)
    (commit_index : Option Int) (ctx : Ctx) (end_term : PyStr)
    (pod_role : PyStr) (exitCode : Int) :
    List Effect × Except RestoreError Unit :=
  if pod_role = NODE_ROLE_VOTER ∧ commit_index = none then
    ([], .error .configError)
  else
    let csiStr : PyStr :=
      if pod_role = NODE_ROLE_VOTER then pyStrOfOptInt commit_index
      else pyStrOfOptStr cluster_start_index
    let init_metadata_cmd :=
      [pyJoin (pyJoin ctx.engine_home (strL "bin")) (strL "mysqld"),
       strL "--defaults-file=" ++ ctx.mycnf_path,
       strL "--cluster-current-term=" ++ end_term,
       strL "--cluster-info=" ++ ctx.xcluster_info_local,
       strL "--cluster-force-change-meta=ON",
       strL "--cluster-force-single-mode=ON",
       strL "--loose-cluster-force-recover-index=" ++ csiStr,
       strL "--cluster-start-index=" ++ csiStr]
    check_run_process init_metadata_cmd exitCode

/-- Embeds `sync_cluster_metadata` (restore.py:252-259). -/
def sync_cluster_metadata (ctx : Ctx) (exitCode : Int) :
    List Effect × Except RestoreError Unit :=
  let sync_metadata_cmd :=
    [pyJoin (pyJoin ctx.engine_home (strL "bin")) (strL "mysqld"),
     strL "--defaults-file=" ++ ctx.mycnf_path,
     strL "--cluster-info=" ++ ctx.xcluster_info_env,
     strL "--cluster-force-change-meta=ON"]
  check_run_process sync_metadata_cmd exitCode

/-- Environment of the driver: the parsed restore-context descriptor plus
one observation per external interaction (downloaded file contents,
child-process exit codes, tool stdout, poll trace). -/
structure Env : Type where
  ctx : Ctx
  /-- Value of `params["backupCommitIndex"]` (nullable integer) -/
  commitIndex : Option Int
  backupFilePath : PyStr
  binlogDirPath : PyStr
  storageName : PyStr
  tmpDirExists : Bool
  dataDirExists : Bool
  logDirExists : Bool
  tmpVolExists : Bool
  runDirExists : Bool
  confDirExists : Bool
  overrideExists : Bool
  /-- exit status of the `xbstream` extraction (ignored by the source) -/
  decompressExit : Int
  /-- exit status of the prepare/apply-log pass (ignored by the source) -/
  applyExit : Int
  /-- content of the downloaded `binlog_list` manifest -/
  binlogListContent : PyStr
  /-- content of `xtrabackup_binlog_info`, `none` when absent -/
  markerFile : Option PyStr
  chownExit : Int
  /-- stdout of `mysqlbinlogtailor --show-index-info` -/
  indexToolOut : PyStr
  forceInitExit : Int
  /-- Value of `time.time()` when the catch-up monitor computes its deadline -/
  startTime : Nat
  /-- catch-up poll iterations: (clock reading, status-query output) -/
  pollTrace : List (Nat × PyStr)
  syncExit : Int
deriving DecidableEq

/-- Embeds the driver `start` (restore.py:46-107) as a state machine
over `Env`: returns the ordered effect trace together with the outcome
of the run, or `none` when the poll trace ends while the catch-up loop is
still running.  The sequencing, the early role-check return, and every
error propagation point follow the source line by line. -/
def start (env : Env) : Option (List Effect × Except RestoreError Unit) :=
  let ctx := env.ctx
  let node_role := ctx.node_role
  if node_role ≠ NODE_ROLE_CANDIDATE ∧ node_role ≠ NODE_ROLE_LEARNER then
    some ([], .ok ())
  else
    let e1 := mkdir_needed ctx env.tmpDirExists env.dataDirExists
      env.logDirExists env.tmpVolExists env.runDirExists
    -- backup_file_name = backup_file_path.split("/")[-1]; `pySplit` never
    -- returns an empty list, so the [-1] indexing cannot fail.
    let backup_file_name := (pySplit '/' env.backupFilePath).getLastD []
    let e2 := download_backup_file env.backupFilePath backup_file_name
    let e3 := (decompress_backup_file backup_file_name ctx env.decompressExit).1
    let e4 := initialize_local_mycnf ctx env.confDirExists env.overrideExists
    let e5 := (apply_backup_file ctx env.applyExit).1
    let e6 := (download_binlogbackup_file env.binlogDirPath env.binlogListContent).1
    let mysql_bin_list :=
      (download_binlogbackup_file env.binlogDirPath env.binlogListContent).2
    let e7 := (copy_binlog_to_new_path mysql_bin_list (volume_path ctx (strL "log"))).1
    let indexContent :=
      (copy_binlog_to_new_path mysql_bin_list (volume_path ctx (strL "log"))).2
    let acc7 := e1 ++ e2 ++ e3 ++ e4 ++ e5 ++ e6 ++ e7
    match get_xtrabackup_binlog_info_from_instance_local env.markerFile with
    | .error _ => some (acc7, .error .pyError)
    | .ok cluster_start_index =>
      let e8 := (chown_data_dir ctx env.chownExit).1
      match (chown_data_dir ctx env.chownExit).2 with
      | .error er => some (acc7 ++ e8, .error er)
      | .ok _ =>
        match show_last_and_first_binlog indexContent ctx with
        | .error _ => some (acc7 ++ e8, .error .pyError)
        | .ok (last_binlog, _first_binlog) =>
          let e9 := [Effect.spawnPipeE
            [ctx.mysqlbinlogtailor, strL "--show-index-info", last_binlog]]
          match xdbParseBinlogIndex env.indexToolOut with
          | .error _ => some (acc7 ++ e8 ++ e9, .error .pyError)
          | .ok (end_index, end_term) =>
            let e10 := (init_mysqld_metadata cluster_start_index
              env.commitIndex ctx end_term node_role env.forceInitExit).1
            match (init_mysqld_metadata cluster_start_index
              env.commitIndex ctx end_term node_role env.forceInitExit).2 with
            | .error er => some (acc7 ++ e8 ++ e9 ++ e10, .error er)
            | .ok _ =>
              let engineCmd :=
                [pyJoin (pyJoin ctx.engine_home (strL "bin")) (strL "mysqld"),
                 strL "--defaults-file=" ++ ctx.mycnf_path,
                 strL "--user=mysql"]
              let acc11 := acc7 ++ e8 ++ e9 ++ e10 ++ [Effect.spawnEngineE engineCmd]
              match wait_binlog_apply_ready env.startTime end_index env.pollTrace with
              | none => none
              | some (.error er) => some (acc11, .error er)
              | some (.ok _) =>
                let acc12 := acc11 ++ [Effect.killEngineE, Effect.waitEngineE]
                let e13 := (sync_cluster_metadata ctx env.syncExit).1
                match (sync_cluster_metadata ctx env.syncExit).2 with
                | .error er => some (acc12 ++ e13, .error er)
                | .ok _ =>
                  some (acc12 ++ e13 ++ [Effect.markInitializedE], .ok ())

/-- Value extracted from one status row by the loop body of
`check_binlog_apply_index_status`: the third-from-last tab-separated
column, parsed as an integer. -/
def rowApplyIndex (row : PyStr) : Except Unit Int :=
  match pyIndexNeg (pySplit '\t' row) 3 with
  | .error e => .error e
  | .ok col => pyInt col

/-!  ## Concrete driver environments used to evaluate the embedding -/

/-- Concrete node context: a Candidate node with representative paths. -/
def baseCtx : Ctx :=
  { node_role := NODE_ROLE_CANDIDATE
    engine_home := strL "/opt/engine"
    mycnf_path := strL "/data/mysql/conf/my.cnf"
    mycnf_override_path := strL "/data/mysql/conf/my.cnf.override"
    mysql_conf := strL "/data/mysql/conf"
    xtrabackup_home := strL "/opt/xtrabackup/bin"
    xtrabackup := strL "/opt/xtrabackup/bin/xtrabackup"
    mysqlbinlogtailor := strL "/opt/engine/bin/mysqlbinlogtailor"
    volume_data := strL "/data/mysql"
    is_galaxy80 := true
    is_xcluster57 := false
    xcluster_info_local := strL "pod-0:11306@1"
    xcluster_info_env := strL "pod-0.headless:11306@1"
    reset_config := false }

/-- Concrete happy-path environment: every external interaction
succeeds, the index-inspection tool reports end index 37, the first poll
iteration is caught up. -/
def baseEnv : Env :=
  { ctx := baseCtx
    commitIndex := none
    backupFilePath := strL "/backup/full/stream.xbstream"
    binlogDirPath := strL "/backup/binlog"
    storageName := strL "s3"
    tmpDirExists := false
    dataDirExists := false
    logDirExists := false
    tmpVolExists := false
    runDirExists := false
    confDirExists := false
    overrideExists := false
    decompressExit := 0
    applyExit := 0
    binlogListContent := strL "mysql_bin.000001\nmysql_bin.000002\n"
    markerFile := some (strL "mysql_bin.000002\t154\n")
    chownExit := 0
    indexToolOut := strL "[[10:2, 37:2]]"
    forceInitExit := 0
    startTime := 0
    pollTrace := [(5, strL "37\tx\ty")]
    syncExit := 0 }

/-- Environment of a Voter node whose restore request has no backup
commit index. -/
def voterEnv : Env :=
  { baseEnv with ctx := { baseCtx with node_role := NODE_ROLE_VOTER } }

/-- Environment of a node whose role is neither Candidate nor Learner
nor Voter. -/
def otherRoleEnv : Env :=
  { baseEnv with ctx := { baseCtx with node_role := strL "logger" } }

/-- Environment where the archive extraction and the prepare/apply-log
child processes both exit with status 1 and everything else succeeds. -/
def failedToolsEnv : Env :=
  { baseEnv with decompressExit := 1, applyExit := 1 }

/-- Environment whose first catch-up clock reading is already past the
48-hour deadline, forcing the timeout error. -/
def timeoutEnv : Env :=
  { baseEnv with pollTrace := [(48 * 60 * 60 + 7, strL "37\tx\ty")] }

/-!  ## General lemmas on the Python string primitives -/

/-- Splitting a string that does not contain the separator yields the
single-piece list. -/
theorem pySplit_eq_single {sep : Char} {x : PyStr} (h : sep ∉ x) :
    pySplit sep x = [x] := by
  induction x with
  | nil => rfl
  | cons c rest ih =>
    have h1 : ¬ c = sep := fun hc => h (hc ▸ List.mem_cons_self c rest)
    have h2 : sep ∉ rest := fun hr => h (List.mem_cons_of_mem _ hr)
    rw [pySplit, if_neg h1, ih h2, consHead]

/-- Splitting peels off a separator-free first piece. -/
theorem pySplit_append_cons {sep : Char} {x y : PyStr} (h : sep ∉ x) :
    pySplit sep (x ++ sep :: y) = x :: pySplit sep y := by
  induction x with
  | nil => simp [pySplit]
  | cons c rest ih =>
    have h1 : ¬ c = sep := fun hc => h (hc ▸ List.mem_cons_self c rest)
    have h2 : sep ∉ rest := fun hr => h (List.mem_cons_of_mem _ hr)
    show pySplit sep (c :: (rest ++ sep :: y)) = _
    rw [pySplit, if_neg h1, ih h2, consHead]

/-- Splitting a flattened list of newline-terminated chunks recovers the
chunks plus one trailing empty piece. -/
theorem pySplit_flatten_newline {ps : List PyStr}
    (h : ∀ p ∈ ps, '\n' ∉ p) :
    pySplit '\n' ((ps.map (fun p => p ++ ['\n'])).flatten) = ps ++ [[]] := by
  induction ps with
  | nil => rfl
  | cons p rest ih =>
    have hp : '\n' ∉ p := h p (List.mem_cons_self p rest)
    have hrest : ∀ q ∈ rest, '\n' ∉ q := fun q hq => h q (List.mem_cons_of_mem _ hq)
    have hassoc : (p ++ ['\n']) ++ ((rest.map (fun q => q ++ ['\n'])).flatten)
        = p ++ '\n' :: ((rest.map (fun q => q ++ ['\n'])).flatten) := by
      simp
    simp only [List.map_cons, List.flatten_cons, hassoc,
      pySplit_append_cons hp, ih hrest, List.cons_append]

/-- Recovering the written lines: `splitlines` of a flattened list of
newline-terminated chunks is the chunk list itself. -/
theorem pySplitLines_flatten_newline {ps : List PyStr}
    (h : ∀ p ∈ ps, '\n' ∉ p) :
    pySplitLines ((ps.map (fun p => p ++ ['\n'])).flatten) = ps := by
  cases ps with
  | nil => rfl
  | cons p rest =>
    have hne : ((p ++ ['\n']) :: rest.map (fun q => q ++ ['\n'])).flatten ≠ [] := by
      simp
    unfold pySplitLines
    rw [List.map_cons, if_neg (by simp)]
    have hsplit := pySplit_flatten_newline h
    rw [List.map_cons] at hsplit
    rw [hsplit]
    have hg : ((p :: rest) ++ [[]] : List PyStr).getLast? = some [] :=
      List.getLast?_concat _
    have hd : ((p :: rest) ++ [[]] : List PyStr).dropLast = p :: rest :=
      List.dropLast_concat
    show (if ((p :: rest) ++ [[]] : List PyStr).getLast? = some []
          then ((p :: rest) ++ [[]] : List PyStr).dropLast
          else (p :: rest) ++ [[]]) = p :: rest
    rw [hg, if_pos rfl, hd]

/-- Stripping an all-whitespace string yields the empty string. -/
theorem pyStripWs_eq_nil {c : PyStr} (h : ∀ ch ∈ c, pyIsSpace ch = true) :
    pyStripWs c = [] := by
  unfold pyStripWs
  rw [List.dropWhile_eq_nil_iff.mpr h]
  rfl

/-!  ## Claim theorems -/

/-- C9: `get_xtrabackup_binlog_info_from_instance_local` returns `None`
when the local recovery marker file is absent; when the file is present
and contains whitespace-separated tokens, it returns the second token if
at least two tokens are present, else the first token. -/
theorem c9_marker_restore_position :
    (get_xtrabackup_binlog_info_from_instance_local none = .ok none)
    ∧ (∀ (c t1 t2 : PyStr) (rest : List PyStr),
        pySplitWs (pyStripWs c) = t1 :: t2 :: rest →
        get_xtrabackup_binlog_info_from_instance_local (some c) = .ok (some t2))
    ∧ (∀ (c t1 : PyStr),
        pySplitWs (pyStripWs c) = [t1] →
        get_xtrabackup_binlog_info_from_instance_local (some c) = .ok (some t1)) := by
  refine ⟨rfl, ?_, ?_⟩
  · intro c t1 t2 rest h
    have hne : pyStripWs c ≠ [] := by
      intro hc
      rw [hc] at h
      simp [pySplitWs, pySplitWsAux] at h
    simp [get_xtrabackup_binlog_info_from_instance_local, hne, h, pyIndex]
  · intro c t1 h
    have hne : pyStripWs c ≠ [] := by
      intro hc
      rw [hc] at h
      simp [pySplitWs, pySplitWsAux] at h
    simp [get_xtrabackup_binlog_info_from_instance_local, hne, h, pyIndex]

/-- Witness for C9 at concrete marker contents. -/
theorem c9_marker_restore_position_witness :
    get_xtrabackup_binlog_info_from_instance_local
        (some (strL "mysql_bin.000002\t154\n")) = .ok (some (strL "154"))
    ∧ get_xtrabackup_binlog_info_from_instance_local
        (some (strL " mysql_bin.000002 ")) = .ok (some (strL "mysql_bin.000002")) :=
  ⟨c9_marker_restore_position.2.1 (strL "mysql_bin.000002\t154\n")
      (strL "mysql_bin.000002") (strL "154") [] (by decide),
   c9_marker_restore_position.2.2 (strL " mysql_bin.000002 ")
      (strL "mysql_bin.000002") (by decide)⟩

/-- C10: a marker file that exists but is empty or all-whitespace makes
`get_xtrabackup_binlog_info_from_instance_local` return `None`, the same
result as an absent marker, with no error. -/
theorem c10_marker_blank (c : PyStr) (h : ∀ ch ∈ c, pyIsSpace ch = true) :
    get_xtrabackup_binlog_info_from_instance_local (some c) = .ok none
    ∧ get_xtrabackup_binlog_info_from_instance_local (some c)
        = get_xtrabackup_binlog_info_from_instance_local none := by
  have hz : pyStripWs c = [] := pyStripWs_eq_nil h
  constructor
  · simp [get_xtrabackup_binlog_info_from_instance_local, hz]
  · simp [get_xtrabackup_binlog_info_from_instance_local, hz]

/-- Witness for C10 at a concrete whitespace-only marker content. -/
theorem c10_marker_blank_witness :
    get_xtrabackup_binlog_info_from_instance_local (some (strL "  \n ")) = .ok none
    ∧ get_xtrabackup_binlog_info_from_instance_local (some (strL "  \n "))
        = get_xtrabackup_binlog_info_from_instance_local none :=
  c10_marker_blank (strL "  \n ") (by decide)

/-- C6: for every manifest, `copy_binlog_to_new_path` writes a segment
index file containing exactly one log-directory path per manifest entry,
each followed by a newline, in manifest order (the file is opened in
truncating mode, so this is its whole content); re-reading the content
by lines yields the same ordered path sequence. -/
theorem c6_copy_binlog_index_roundtrip (mysql_bin_list : List PyStr)
    (log_dir : PyStr) (h : ∀ b ∈ mysql_bin_list, '\n' ∉ pyJoin log_dir b) :
    (copy_binlog_to_new_path mysql_bin_list log_dir).2
        = ((mysql_bin_list.map (fun b => pyJoin log_dir b)).map
            (fun p => p ++ ['\n'])).flatten
    ∧ pySplitLines (copy_binlog_to_new_path mysql_bin_list log_dir).2
        = mysql_bin_list.map (fun b => pyJoin log_dir b) := by
  have hcontent : (copy_binlog_to_new_path mysql_bin_list log_dir).2
      = ((mysql_bin_list.map (fun b => pyJoin log_dir b)).map
          (fun p => p ++ ['\n'])).flatten := by
    simp only [copy_binlog_to_new_path, List.map_map]
    rfl
  refine ⟨hcontent, ?_⟩
  rw [hcontent]
  exact pySplitLines_flatten_newline (by
    intro p hp
    obtain ⟨b, hb, rfl⟩ := List.mem_map.mp hp
    exact h b hb)

/-- Witness for C6 at the concrete manifest of spec §8.3. -/
theorem c6_copy_binlog_index_roundtrip_witness :
    (copy_binlog_to_new_path
        [strL "seg.000001", strL "seg.000003", strL "seg.000002"]
        (strL "/data/mysql/log")).2
      = (([strL "seg.000001", strL "seg.000003", strL "seg.000002"].map
            (fun b => pyJoin (strL "/data/mysql/log") b)).map
          (fun p => p ++ ['\n'])).flatten
    ∧ pySplitLines (copy_binlog_to_new_path
        [strL "seg.000001", strL "seg.000003", strL "seg.000002"]
        (strL "/data/mysql/log")).2
      = [strL "seg.000001", strL "seg.000003", strL "seg.000002"].map
          (fun b => pyJoin (strL "/data/mysql/log") b) :=
  c6_copy_binlog_index_roundtrip
    [strL "seg.000001", strL "seg.000003", strL "seg.000002"]
    (strL "/data/mysql/log") (by decide)

/-- C7: for index-inspection output whose normalised text (whitespace
stripped, surrounding bracket characters stripped, internal spaces
removed) has the form first-pair, comma, second-pair, the parser of
`xdb_show_binlog_index` returns the second pair as
(endIndex, endTerm); in particular `[[10:2, 37:2]]` parses to 37 and 2
(the witness instantiates exactly that input). -/
theorem c7_xdb_parse_second_pair (s a b c d : PyStr)
    (ha : ',' ∉ a) (hb : ',' ∉ b) (hc : ',' ∉ c) (hd : ',' ∉ d)
    (hc2 : ':' ∉ c) (hd2 : ':' ∉ d)
    (htemp : pyReplaceSpace (pyStripChars (strL "[[]]") (pyStripWs s))
        = (a ++ ':' :: b) ++ ',' :: (c ++ ':' :: d)) :
    xdbParseBinlogIndex s = .ok (c, d) := by
  have h1 : ',' ∉ a ++ ':' :: b := by
    intro hmem
    rcases List.mem_append.mp hmem with h | h
    · exact ha h
    · rcases List.mem_cons.mp h with h | h
      · exact absurd h (by decide)
      · exact hb h
  have h2 : ',' ∉ c ++ ':' :: d := by
    intro hmem
    rcases List.mem_append.mp hmem with h | h
    · exact hc h
    · rcases List.mem_cons.mp h with h | h
      · exact absurd h (by decide)
      · exact hd h
  unfold xdbParseBinlogIndex
  simp only [htemp]
  rw [pySplit_append_cons h1, pySplit_eq_single h2]
  simp only [pyIndex, List.getElem?_cons_zero, List.getElem?_cons_succ]
  rw [pySplit_append_cons hc2, pySplit_eq_single hd2]
  simp [pyIndex]

/-- Witness for C7 at the concrete output of spec §8.4. -/
theorem c7_xdb_parse_second_pair_witness :
    xdbParseBinlogIndex (strL "[[10:2, 37:2]]") = .ok (strL "37", strL "2") :=
  c7_xdb_parse_second_pair (strL "[[10:2, 37:2]]")
    (strL "10") (strL "2") (strL "37") (strL "2")
    (by decide) (by decide) (by decide) (by decide) (by decide) (by decide)
    (by decide)

/-- C5: the catch-up monitor computes an absolute deadline equal to its
start time plus a fixed 48-hour budget and raises the timeout error when
readiness is never reached before a clock reading at or past the
deadline; in particular, when the very first clock reading is already at
or past the deadline it raises the timeout error regardless of the query
output of that iteration (the output is universally quantified and never
evaluated). -/
theorem c5_wait_deadline (t0 : Nat) (endStr : PyStr) :
    (∀ trace : List (Nat × PyStr),
        (∀ s ∈ trace, check_binlog_apply_index_status s.2 endStr ≠ .ok true) →
        (∃ s ∈ trace, t0 + 48 * 60 * 60 ≤ s.1) →
        wait_binlog_apply_ready t0 endStr trace = some (.error .timeoutError))
    ∧ (∀ (t : Nat) (out : PyStr) (rest : List (Nat × PyStr)),
        t0 + 48 * 60 * 60 ≤ t →
        wait_binlog_apply_ready t0 endStr ((t, out) :: rest)
          = some (.error .timeoutError)) := by
  constructor
  · intro trace h1 h2
    induction trace with
    | nil => simp at h2
    | cons s rest ih =>
      obtain ⟨t, out⟩ := s
      unfold wait_binlog_apply_ready waitLoop
      by_cases hlt : t < t0 + 48 * 60 * 60
      · rw [if_pos hlt]
        have hcheck := h1 (t, out) (List.mem_cons_self _ _)
        have hrec : waitLoop (t0 + 48 * 60 * 60) endStr rest
            = some (.error .timeoutError) := by
          have h1r : ∀ s ∈ rest, check_binlog_apply_index_status s.2 endStr ≠ .ok true :=
            fun s hs => h1 s (List.mem_cons_of_mem _ hs)
          have h2r : ∃ s ∈ rest, t0 + 48 * 60 * 60 ≤ s.1 := by
            obtain ⟨w, hw, hwt⟩ := h2
            rcases List.mem_cons.mp hw with h | h
            · subst h; omega
            · exact ⟨w, h, hwt⟩
          exact ih h1r h2r
        cases hchk : check_binlog_apply_index_status out endStr with
        | error e => simp only [hchk]; exact hrec
        | ok bv =>
          cases bv with
          | true => exact absurd hchk hcheck
          | false => simp only [hchk]; exact hrec
      · rw [if_neg hlt]
  · intro t out rest hle
    unfold wait_binlog_apply_ready waitLoop
    rw [if_neg (by omega)]

/-- Witness for C5 at a concrete past-deadline trace. -/
theorem c5_wait_deadline_witness :
    wait_binlog_apply_ready 0 (strL "37") [(48 * 60 * 60, strL "40\tx\ty")]
      = some (.error .timeoutError) :=
  (c5_wait_deadline 0 (strL "37")).2 (48 * 60 * 60) (strL "40\tx\ty") []
    (by omega)

/-- Helper for C2: when every row parses, the row loop returns `true`
exactly when every row value reaches the target. -/
theorem checkRows_ok_true_iff {endStr : PyStr} {tgt : Int}
    (hEnd : pyInt endStr = .ok tgt) :
    ∀ rows : List PyStr, (∀ r ∈ rows, ∃ v, rowApplyIndex r = .ok v) →
      (checkRows endStr rows = .ok true ↔
        ∀ r ∈ rows, ∀ v, rowApplyIndex r = .ok v → tgt ≤ v) := by
  intro rows
  induction rows with
  | nil => intro _; simp [checkRows]
  | cons row rest ih =>
    intro hRows
    obtain ⟨v, hv⟩ := hRows row (List.mem_cons_self _ _)
    have hRest : ∀ r ∈ rest, ∃ w, rowApplyIndex r = .ok w :=
      fun r hr => hRows r (List.mem_cons_of_mem _ hr)
    cases hcol : pyIndexNeg (pySplit '\t' row) 3 with
    | error e =>
      rw [rowApplyIndex, hcol] at hv
      simp at hv
    | ok col =>
      have hvcol : pyInt col = .ok v := by
        rw [rowApplyIndex, hcol] at hv
        exact hv
      unfold checkRows
      simp only [hcol, hvcol, hEnd]
      by_cases hvt : v < tgt
      · rw [if_pos hvt]
        constructor
        · intro hfalse
          exact absurd hfalse (by simp)
        · intro hall
          have := hall row (List.mem_cons_self _ _) v hv
          omega
      · rw [if_neg hvt, ih hRest]
        constructor
        · intro hall
          intro r hr w hw
          rcases List.mem_cons.mp hr with h | h
          · subst h
            rw [hv] at hw
            have : v = w := by injection hw
            omega
          · exact hall r h w hw
        · intro hall r hr w hw
          exact hall r (List.mem_cons_of_mem _ hr) w hw

/-- Helper for C2: when every row parses and some row value is below the
target, the row loop returns `false`. -/
theorem checkRows_ok_false {endStr : PyStr} {tgt : Int}
    (hEnd : pyInt endStr = .ok tgt) :
    ∀ rows : List PyStr, (∀ r ∈ rows, ∃ v, rowApplyIndex r = .ok v) →
      (∃ r ∈ rows, ∃ v, rowApplyIndex r = .ok v ∧ v < tgt) →
      checkRows endStr rows = .ok false := by
  intro rows
  induction rows with
  | nil => intro _ hex; simp at hex
  | cons row rest ih =>
    intro hRows hex
    obtain ⟨v, hv⟩ := hRows row (List.mem_cons_self _ _)
    have hRest : ∀ r ∈ rest, ∃ w, rowApplyIndex r = .ok w :=
      fun r hr => hRows r (List.mem_cons_of_mem _ hr)
    cases hcol : pyIndexNeg (pySplit '\t' row) 3 with
    | error e =>
      rw [rowApplyIndex, hcol] at hv
      simp at hv
    | ok col =>
      have hvcol : pyInt col = .ok v := by
        rw [rowApplyIndex, hcol] at hv
        exact hv
      unfold checkRows
      simp only [hcol, hvcol, hEnd]
      by_cases hvt : v < tgt
      · rw [if_pos hvt]
      · rw [if_neg hvt]
        apply ih hRest
        obtain ⟨r, hr, w, hw, hwt⟩ := hex
        rcases List.mem_cons.mp hr with h | h
        · subst h
          rw [hv] at hw
          have : v = w := by injection hw
          omega
        · exact ⟨r, h, w, hw, hwt⟩

/-- C2: when the status-query output is nonempty, the target index
parses, and every row has a parsable third-from-last tab-separated
column, `check_binlog_apply_index_status` returns ready (`true`) exactly
when every row value is at least the target index, and returns
not-ready (`false`) whenever at least one row value is below the target
index. -/
theorem c2_check_binlog_apply_iff (output endStr : PyStr) (tgt : Int)
    (hOut : output ≠ [])
    (hEnd : pyInt endStr = .ok tgt)
    (hRows : ∀ r ∈ pySplit '\n' output, ∃ v, rowApplyIndex r = .ok v) :
    (check_binlog_apply_index_status output endStr = .ok true ↔
        ∀ r ∈ pySplit '\n' output, ∀ v, rowApplyIndex r = .ok v → tgt ≤ v)
    ∧ ((∃ r ∈ pySplit '\n' output, ∃ v, rowApplyIndex r = .ok v ∧ v < tgt) →
        check_binlog_apply_index_status output endStr = .ok false) := by
  unfold check_binlog_apply_index_status
  rw [if_neg hOut]
  exact ⟨checkRows_ok_true_iff hEnd _ hRows, checkRows_ok_false hEnd _ hRows⟩

/-- Witness for C2 at concrete outputs: rows with values 40 and 50
against target 40 are ready; rows with values 39 and 50 against target
40 are not ready. -/
theorem c2_check_binlog_apply_iff_witness :
    check_binlog_apply_index_status (strL "40\ta\tb\n50\ta\tb") (strL "40")
        = .ok true
    ∧ check_binlog_apply_index_status (strL "39\ta\tb\n50\ta\tb") (strL "40")
        = .ok false := by
  constructor
  · refine (c2_check_binlog_apply_iff (strL "40\ta\tb\n50\ta\tb") (strL "40") 40
      (by decide) rfl ?_).1.mpr ?_
    · intro r hr
      rw [show pySplit '\n' (strL "40\ta\tb\n50\ta\tb")
          = [strL "40\ta\tb", strL "50\ta\tb"] from rfl] at hr
      rcases List.mem_cons.mp hr with h | h
      · exact ⟨40, by rw [h]; rfl⟩
      · rcases List.mem_cons.mp h with h2 | h2
        · exact ⟨50, by rw [h2]; rfl⟩
        · exact absurd h2 (by simp)
    · intro r hr v hv
      rw [show pySplit '\n' (strL "40\ta\tb\n50\ta\tb")
          = [strL "40\ta\tb", strL "50\ta\tb"] from rfl] at hr
      rcases List.mem_cons.mp hr with h | h
      · subst h
        rw [show rowApplyIndex (strL "40\ta\tb") = Except.ok (40 : Int) from rfl] at hv
        injection hv with hv2
        omega
      · rcases List.mem_cons.mp h with h2 | h2
        · subst h2
          rw [show rowApplyIndex (strL "50\ta\tb") = Except.ok (50 : Int) from rfl] at hv
          injection hv with hv2
          omega
        · exact absurd h2 (by simp)
  · refine (c2_check_binlog_apply_iff (strL "39\ta\tb\n50\ta\tb") (strL "40") 40
      (by decide) rfl ?_).2 ?_
    · intro r hr
      rw [show pySplit '\n' (strL "39\ta\tb\n50\ta\tb")
          = [strL "39\ta\tb", strL "50\ta\tb"] from rfl] at hr
      rcases List.mem_cons.mp hr with h | h
      · exact ⟨39, by rw [h]; rfl⟩
      · rcases List.mem_cons.mp h with h2 | h2
        · exact ⟨50, by rw [h2]; rfl⟩
        · exact absurd h2 (by simp)
    · exact ⟨strL "39\ta\tb", by decide, 39, rfl, by omega⟩

/-- C4: for every node role other than Candidate and Learner, the driver
terminates successfully right after the role check, with an empty effect
trace: no filesystem changes, no downloads, no spawned processes. -/
theorem c4_role_check_noop (env : Env)
    (h1 : env.ctx.node_role ≠ NODE_ROLE_CANDIDATE)
    (h2 : env.ctx.node_role ≠ NODE_ROLE_LEARNER) :
    start env = some ([], .ok ()) := by
  unfold start
  simp only []
  rw [if_pos ⟨h1, h2⟩]

/-- Witness for C4 at a concrete ineligible role. -/
theorem c4_role_check_noop_witness :
    start otherRoleEnv = some ([], .ok ()) :=
  c4_role_check_noop otherRoleEnv (by decide) (by decide)

/-- Counterexample for C1: a run whose node role is Voter and whose
restore request has no backup commit index terminates successfully with
an empty effect trace at the role check; it does not fail with a
configuration error during force-init. -/
theorem c1_voter_run_counterexample :
    start voterEnv = some ([], .ok ()) := rfl

/-- C1 (amended): the force-init routine itself, invoked with role Voter
and no backup commit index, raises the configuration error without
spawning any process; but a driver run with role Voter never reaches
force-init — it exits successfully at the role check with no effects. -/
theorem c1_voter_force_init_amended (cluster_start_index : Option PyStr)
    (ctx : Ctx) (end_term : PyStr) (exitCode : Int) :
    init_mysqld_metadata cluster_start_index none ctx end_term
        NODE_ROLE_VOTER exitCode = ([], .error .configError)
    ∧ ∀ env : Env, env.ctx.node_role = NODE_ROLE_VOTER →
        start env = some ([], .ok ()) := by
  constructor
  · simp [init_mysqld_metadata]
  · intro env h
    unfold start
    simp only []
    rw [if_pos ⟨by rw [h]; decide, by rw [h]; decide⟩]

/-- Witness for C1 (amended) at concrete inputs. -/
theorem c1_voter_force_init_amended_witness :
    init_mysqld_metadata none none baseCtx (strL "2")
        NODE_ROLE_VOTER 0 = ([], .error .configError)
    ∧ start voterEnv = some ([], .ok ()) :=
  ⟨(c1_voter_force_init_amended none baseCtx (strL "2") 0).1,
   (c1_voter_force_init_amended none baseCtx (strL "2") 0).2 voterEnv rfl⟩

/-- C3 (code evaluation): non-zero exit statuses of the archive
extraction and the prepare/apply-log child processes are ignored — both
phase functions return success for every exit code, and a full driver
run in which both exit with status 1 still runs to completion, marking
the node initialized (the force-init and sync invocations, run through
check_run_process, do raise on non-zero exit). -/
theorem c3_nonzero_exit_ignored :
    (∀ (name : PyStr) (ctx : Ctx) (code : Int),
        (decompress_backup_file name ctx code).2 = .ok ())
    ∧ (∀ (ctx : Ctx) (code : Int), (apply_backup_file ctx code).2 = .ok ())
    ∧ ((start failedToolsEnv).getD ([], .error .pyError)).2 = .ok ()
    ∧ Effect.markInitializedE ∈ ((start failedToolsEnv).getD ([], .error .pyError)).1
    ∧ (∀ cmd : List PyStr,
        (check_run_process cmd 1).2 = .error (.processError cmd 1)) := by
  refine ⟨fun _ _ _ => rfl, fun _ _ => rfl, rfl, by decide, ?_⟩
  intro cmd
  simp [check_run_process]

/-- Helper for C8: the directory-setup phase emits no engine kill. -/
@[simp]
theorem killE_not_mem_mkdir_needed (ctx : Ctx) (a b c d e : Bool) :
    Effect.killEngineE ∉ mkdir_needed ctx a b c d e := by
  unfold mkdir_needed
  split_ifs <;> simp

/-- Helper for C8: the config-initialisation phase emits no engine kill. -/
@[simp]
theorem killE_not_mem_initialize_mycnf (ctx : Ctx) (a b : Bool) :
    Effect.killEngineE ∉ initialize_local_mycnf ctx a b := by
  unfold initialize_local_mycnf
  split_ifs <;> simp

/-- Helper for C8: the log-segment download phase emits no engine kill. -/
@[simp]
theorem killE_not_mem_download_binlog (p c : PyStr) :
    Effect.killEngineE ∉ (download_binlogbackup_file p c).1 := by
  unfold download_binlogbackup_file
  simp

/-- Helper for C8: the segment-copy phase emits no engine kill. -/
@[simp]
theorem killE_not_mem_copy_binlog (l : List PyStr) (d : PyStr) :
    Effect.killEngineE ∉ (copy_binlog_to_new_path l d).1 := by
  unfold copy_binlog_to_new_path
  simp [List.mem_flatten]

/-- Helper for C8: the force-init phase emits no engine kill. -/
@[simp]
theorem killE_not_mem_init_metadata (csi : Option PyStr) (ci : Option Int)
    (ctx : Ctx) (et pr : PyStr) (ec : Int) :
    Effect.killEngineE ∉ (init_mysqld_metadata csi ci ctx et pr ec).1 := by
  unfold init_mysqld_metadata
  split_ifs <;> simp [check_run_process]

/-- Counterexample for C8: a run whose catch-up monitor times out ends
with the timeout error, an engine-spawn effect in its trace, and no
engine-kill effect — the engine process is left running past the end of
the run. -/
theorem c8_engine_left_running_counterexample :
    ((start timeoutEnv).getD ([], .ok ())).2 = .error .timeoutError
    ∧ Effect.spawnEngineE
        [pyJoin (pyJoin (strL "/opt/engine") (strL "bin")) (strL "mysqld"),
         strL "--defaults-file=" ++ strL "/data/mysql/conf/my.cnf",
         strL "--user=mysql"] ∈ ((start timeoutEnv).getD ([], .ok ())).1
    ∧ Effect.killEngineE ∉ ((start timeoutEnv).getD ([], .ok ())).1 :=
  ⟨rfl, by decide, by decide⟩

/-- C8 (amended): on a run that passes the role check, the engine
process started before catch-up is killed and waited whenever
catch-up succeeds; but when the catch-up monitor fails with the timeout
error, the error propagates and the driver does not terminate the
engine process — the spawn effect is in the trace without any kill. -/
theorem c8_engine_kill_amended (env : Env) (effs : List Effect) :
    (start env = some (effs, .ok ()) →
        (env.ctx.node_role = NODE_ROLE_CANDIDATE
          ∨ env.ctx.node_role = NODE_ROLE_LEARNER) →
        Effect.killEngineE ∈ effs ∧ Effect.waitEngineE ∈ effs)
    ∧ (start env = some (effs, .error .timeoutError) →
        Effect.killEngineE ∉ effs
        ∧ ∃ cmd, Effect.spawnEngineE cmd ∈ effs) := by
  by_cases hrole : env.ctx.node_role ≠ NODE_ROLE_CANDIDATE
      ∧ env.ctx.node_role ≠ NODE_ROLE_LEARNER
  · have hstart : start env = some ([], .ok ()) := by
      unfold start
      simp only []
      rw [if_pos hrole]
    rw [hstart]
    constructor
    · intro _ hr
      rcases hr with hr | hr
      · exact absurd hr hrole.1
      · exact absurd hr hrole.2
    · intro h
      simp at h
  · unfold start
    simp only []
    rw [if_neg hrole]
    split
    · -- marker read raised
      constructor
      · intro h
        simp at h
      · intro h
        simp at h
    · -- marker read ok
      split
      · -- chown_data_dir failed
        rename_i er h8
        have her : er ≠ RestoreError.timeoutError := by
          intro hcontra
          subst hcontra
          unfold chown_data_dir check_run_process at h8
          split at h8 <;> simp_all
        constructor
        · intro h
          simp at h
        · intro h
          simp only [Option.some.injEq, Prod.mk.injEq, Except.error.injEq] at h
          exact absurd h.2 her
      · -- chown ok
        split
        · -- show_last_and_first_binlog raised
          constructor
          · intro h
            simp at h
          · intro h
            simp at h
        · -- show_last ok
          split
          · -- index parse raised
            constructor
            · intro h
              simp at h
            · intro h
              simp at h
          · -- parse ok
            split
            · -- force-init failed
              rename_i er h10
              have her : er ≠ RestoreError.timeoutError := by
                intro hcontra
                subst hcontra
                unfold init_mysqld_metadata check_run_process at h10
                split at h10
                · simp_all
                · simp only [] at h10
                  split at h10 <;> simp_all
              constructor
              · intro h
                simp at h
              · intro h
                simp only [Option.some.injEq, Prod.mk.injEq, Except.error.injEq] at h
                exact absurd h.2 her
            · -- force-init ok: engine spawned, catch-up monitored
              split
              · -- poll trace exhausted: run still in progress
                constructor
                · intro h
                  simp at h
                · intro h
                  simp at h
              · -- catch-up failed: error propagates, no kill
                rename_i er hw
                constructor
                · intro h
                  simp at h
                · intro h
                  simp only [Option.some.injEq, Prod.mk.injEq] at h
                  rw [← h.1]
                  constructor
                  · simp [decompress_backup_file, apply_backup_file,
                      download_backup_file, chown_data_dir, check_run_process]
                  · exact ⟨[pyJoin (pyJoin env.ctx.engine_home (strL "bin"))
                        (strL "mysqld"),
                      strL "--defaults-file=" ++ env.ctx.mycnf_path,
                      strL "--user=mysql"], by simp⟩
              · -- catch-up succeeded: kill, wait, then sync
                split
                · -- sync failed
                  rename_i er h13
                  have her : er ≠ RestoreError.timeoutError := by
                    intro hcontra
                    subst hcontra
                    unfold sync_cluster_metadata check_run_process at h13
                    split at h13 <;> simp_all
                  constructor
                  · intro h
                    simp at h
                  · intro h
                    simp only [Option.some.injEq, Prod.mk.injEq,
                      Except.error.injEq] at h
                    exact absurd h.2 her
                · -- success: kill and wait are in the trace
                  constructor
                  · intro h _
                    simp only [Option.some.injEq, Prod.mk.injEq] at h
                    rw [← h.1]
                    constructor <;> simp
                  · intro h
                    simp at h

/-- Witness for C8 (amended): on the concrete happy-path environment the
run succeeds and its effect trace contains the engine kill and wait. -/
theorem c8_engine_kill_amended_witness :
    Effect.killEngineE ∈ ((start baseEnv).getD ([], .error .pyError)).1
    ∧ Effect.waitEngineE ∈ ((start baseEnv).getD ([], .error .pyError)).1 :=
  (c8_engine_kill_amended baseEnv
      ((start baseEnv).getD ([], .error .pyError)).1).1 rfl (Or.inl rfl)

end XStoreRestore
